import Mathlib

/-!
Verification of the multilingual-chatbot backend (`backend/app/main.py`,
`backend/app/translation.py`).

The embedding models the process-wide translation-pipeline cache
(`_translation_pipelines` / `_get_pipeline`), the `translate_text` helper,
the per-message body of the `/ws/chat` websocket loop, and the unary
`POST /translate` endpoint.  External collaborators (the transformers
translation model and the LLM completion call `generate_reply`) are
abstracted as an environment of oracles that may fail; Python exceptions
are modelled by the `PyErr` type and fallible code returns `Except`.
Mutable process state (the cache plus instrumentation logs that record
each `translate_text` and `generate_reply` invocation) is threaded
explicitly through every operation.
-/

namespace Chatbot

/-- A Python exception value.  `valueError` is what `_get_pipeline` raises;
`modelError` stands for an arbitrary failure inside the underlying
transformers pipeline call; `otherError` for any other exception;
`translationError` is the spec's TranslationError wrapper taxonomy
(it is never produced by the code, which is what claim C2 is about). -/
inductive PyErr where
  | valueError (msg : String)
  | modelError (msg : String)
  | otherError (msg : String)
  | translationError (cause : PyErr)
deriving DecidableEq, Repr

/-- `str(e)` on a Python exception: the message it carries. -/
def pyMessage : PyErr → String
  | .valueError m => m
  | .modelError m => m
  | .otherError m => m
  | .translationError c => pyMessage c

/-- A constructed translation pipeline (`pipeline('translation', model=model_id)`).
The `uid` field gives each constructed handle a distinct identity, so that
"same handle instance" is expressible; `modelId` is the model it is bound to. -/
structure Handle where
  uid : Nat
  modelId : String
deriving DecidableEq, Repr

/-- Association-list lookup, modelling Python `dict` membership/`get`. -/
def alistFind (key : String) : List (String × α) → Option α
  | [] => none
  | (k, v) :: rest => if k = key then some v else alistFind key rest

/-- `LANGUAGE_MODELS` from translation.py: the static pair-to-model mapping. -/
def LANGUAGE_MODELS : List (String × String) :=
  [ ("en->hi", "Helsinki-NLP/opus-mt-en-hi"),
    ("hi->en", "Helsinki-NLP/opus-mt-hi-en"),
    ("en->ja", "Helsinki-NLP/opus-mt-en-jap"),
    ("ja->en", "Helsinki-NLP/opus-mt-ja-en") ]

/-- Process-wide mutable state: the `_translation_pipelines` cache (in
insertion order, as a Python dict), a counter supplying fresh handle
identities, and instrumentation logs recording every `translate_text`
call (text, src, tgt) and every `generate_reply` call. -/
structure SysState where
  pipelines : List (String × Handle)
  nextUid : Nat
  transLog : List (String × String × String)
  complLog : List String
deriving DecidableEq, Repr

/-- The state at process startup: empty cache, empty logs. -/
def initState : SysState :=
  { pipelines := [], nextUid := 0, transLog := [], complLog := [] }

/-- The external collaborators: `runModel model_id text` is the underlying
transformers pipeline invocation `pipe(text)[0]["translation_text"]` for the
pipeline bound to `model_id`; `generate_reply` is the LLM completion call.
Either may fail with a Python exception. -/
structure Env where
  runModel : String → String → Except PyErr String
  generate_reply : String → Except PyErr String

/-- `_get_pipeline(key)` from translation.py: return the cached pipeline if
present; otherwise look up the configured model id, raising
`ValueError(f"No translation model configured for {key}")` when it is absent
or falsy, else construct a fresh handle, store it under `key`, return it.
The returned state reflects any cache mutation, raise or not. -/
def _get_pipeline (s : SysState) (key : String) : Except PyErr Handle × SysState :=
  match alistFind key s.pipelines with
  | some pipe => (.ok pipe, s)
  | none =>
    match alistFind key LANGUAGE_MODELS with
    | none => (.error (.valueError ("No translation model configured for " ++ key)), s)
    | some model_id =>
      if model_id = "" then
        (.error (.valueError ("No translation model configured for " ++ key)), s)
      else
        let pipe : Handle := { uid := s.nextUid, modelId := model_id }
        (.ok pipe,
          { s with pipelines := s.pipelines ++ [(key, pipe)], nextUid := s.nextUid + 1 })

/-- `translate_text(text, src, tgt)` from translation.py: form the key
`f"{src}->{tgt}"`, resolve the pipeline, invoke it on `text` and extract the
first candidate.  The call is recorded in `transLog` on entry; any exception
from `_get_pipeline` or from the model invocation propagates as-is (the
source has no try/except here). -/
def translate_text (env : Env) (s : SysState) (text src tgt : String) :
    Except PyErr String × SysState :=
  let s1 := { s with transLog := s.transLog ++ [(text, src, tgt)] }
  let key := src ++ "->" ++ tgt
  match _get_pipeline s1 key with
  | (.error e, s2) => (.error e, s2)
  | (.ok pipe, s2) =>
    match env.runModel pipe.modelId text with
    | .error e => (.error e, s2)
    | .ok out => (.ok out, s2)

/-- The outbound websocket payload `{reply, reply_en, detected_source}`. -/
structure ChatResponse where
  reply : String
  reply_en : String
  detected_source : String
deriving DecidableEq, Repr

/-- The per-message body of `websocket_chat` in main.py, after the payload
fields have been extracted: normalize to English (translate only when
`src ≠ "en"`), generate the reply (recorded in `complLog`), resolve the
output language (`"source"` echoes `src`), translate outward only when the
output language is not English, and build the response object.  Any raised
exception aborts the message and propagates (the loop has no handler). -/
def processMsg (env : Env) (s : SysState) (text src tgt : String) :
    Except PyErr ChatResponse × SysState :=
  match (if src ≠ "en" then translate_text env s text src "en" else (.ok text, s)) with
  | (.error e, s1) => (.error e, s1)
  | (.ok user_en, s1) =>
    let s2 := { s1 with complLog := s1.complLog ++ [user_en] }
    match env.generate_reply user_en with
    | .error e => (.error e, s2)
    | .ok bot_en =>
      let out_lang := if tgt = "source" then src else tgt
      match (if out_lang ≠ "en" then translate_text env s2 bot_en "en" out_lang
             else (.ok bot_en, s2)) with
      | (.error e, s3) => (.error e, s3)
      | (.ok bot_out, s3) =>
        (.ok { reply := bot_out, reply_en := bot_en, detected_source := src }, s3)

/-- An inbound websocket frame after `json.loads`: `text` plus the
optional `source_language` and `bot_language` fields (absent field =
`none`, matching `payload.get(..., 'en')` in the source). -/
structure InFrame where
  text : String
  source_language : Option String
  bot_language : Option String
deriving DecidableEq, Repr

/-- Extraction of the payload fields in `websocket_chat`:
`payload.get('source_language', 'en')` and `payload.get('bot_language', 'en')`,
then the message pipeline. -/
def handleFrame (env : Env) (s : SysState) (f : InFrame) :
    Except PyErr ChatResponse × SysState :=
  processMsg env s f.text (f.source_language.getD "en") (f.bot_language.getD "en")

/-- The request body of `POST /translate`: `{text, source_language}`. -/
structure ChatMessage where
  text : String
  source_language : String
deriving DecidableEq, Repr

/-- What the unary endpoint hands to the framework: either the JSON body
`{"translated": ...}` or an `HTTPException(status, detail)` rendered as an
error response. -/
inductive HttpResult where
  | json (translated : String)
  | httpError (status : Nat) (detail : String)
deriving DecidableEq, Repr

/-- `translate_api` from main.py: try `translate_text(msg.text,
msg.source_language, target)` and return `{'translated': out}`; on any
exception `e`, raise `HTTPException(status_code=500, detail=str(e))`.
The outer `Except` is the channel for an exception escaping the endpoint
uncaught; the body's catch-all means it is always `.ok`. -/
def translate_api (env : Env) (s : SysState) (msg : ChatMessage) (target : String) :
    Except PyErr HttpResult × SysState :=
  match translate_text env s msg.text msg.source_language target with
  | (.ok out, s1) => (.ok (.json out), s1)
  | (.error e, s1) => (.ok (.httpError 500 (pyMessage e)), s1)

/-- Modelled from the spec: the unary endpoint as claim C1 describes it,
using only step 4's logic of the Message Pipeline — when `target ≠ "en"`,
translate the text from English to `target`; when `target = "en"`, pass the
text through unchanged.  For comparison against `translate_api`. -/
def translate_api_step4Spec (env : Env) (s : SysState) (msg : ChatMessage) (target : String) :
    Except PyErr HttpResult × SysState :=
  if target ≠ "en" then
    match translate_text env s msg.text "en" target with
    | (.ok out, s1) => (.ok (.json out), s1)
    | (.error e, s1) => (.ok (.httpError 500 (pyMessage e)), s1)
  else
    (.ok (.json msg.text), s)

/-- A concrete environment where both collaborators succeed. -/
def envOk : Env :=
  { runModel := fun _ t => .ok ("T:" ++ t),
    generate_reply := fun t => .ok ("R:" ++ t) }

/-- A concrete environment where the underlying translation model fails. -/
def envFail : Env :=
  { runModel := fun _ _ => .error (.modelError "boom"),
    generate_reply := fun t => .ok ("R:" ++ t) }

/-- The cache maps keys only to configured pairs (holds in every reachable state). -/
def cacheConfigured (s : SysState) : Bool :=
  s.pipelines.all (fun p => (alistFind p.1 LANGUAGE_MODELS).isSome)

/-- Running a sequence of `_get_pipeline` resolutions from a state, keeping only
the state threading (a raised `ValueError` leaves the state as it was). -/
def runResolves (ks : List String) (s : SysState) : SysState :=
  match ks with
  | [] => s
  | k :: rest => runResolves rest (_get_pipeline s k).2

theorem alistFind_append_of_some {α : Type} {l : List (String × α)} {k : String} {v : α}
    (l2 : List (String × α)) (h : alistFind k l = some v) :
    alistFind k (l ++ l2) = some v := by
  induction l with
  | nil => simp [alistFind] at h
  | cons p rest ih =>
    obtain ⟨k1, v1⟩ := p
    simp only [alistFind, List.cons_append] at h ⊢
    by_cases hk : k1 = k
    · simpa [hk] using h
    · simp only [hk, if_false] at h ⊢
      exact ih h

theorem alistFind_append_self {α : Type} {l : List (String × α)} {k : String} (v : α)
    (h : alistFind k l = none) : alistFind k (l ++ [(k, v)]) = some v := by
  induction l with
  | nil => simp [alistFind]
  | cons p rest ih =>
    obtain ⟨k1, v1⟩ := p
    simp only [alistFind, List.cons_append] at h ⊢
    by_cases hk : k1 = k
    · simp [hk] at h
    · simp only [hk, if_false] at h ⊢
      exact ih h

theorem alistFind_eq_none_iff {α : Type} {l : List (String × α)} {k : String} :
    alistFind k l = none ↔ k ∉ l.map Prod.fst := by
  induction l with
  | nil => simp [alistFind]
  | cons p rest ih =>
    obtain ⟨k1, v1⟩ := p
    by_cases hk : k1 = k
    · simp [alistFind, hk]
    · simp [alistFind, hk, ih, Ne.symm hk]

theorem alistFind_mem {α : Type} {l : List (String × α)} {k : String} {v : α}
    (h : alistFind k l = some v) : (k, v) ∈ l := by
  induction l with
  | nil => simp [alistFind] at h
  | cons p rest ih =>
    obtain ⟨k1, v1⟩ := p
    simp only [alistFind] at h
    split_ifs at h with hk
    · injection h with h2
      subst h2
      subst hk
      exact List.mem_cons_self _ _
    · exact List.mem_cons_of_mem _ (ih h)

/-- Every configured model identifier in `LANGUAGE_MODELS` is non-empty
(so the falsy check in `_get_pipeline` never fires on a configured pair). -/
theorem models_nonempty {k m : String} (h : alistFind k LANGUAGE_MODELS = some m) :
    m ≠ "" := by
  simp only [LANGUAGE_MODELS, alistFind] at h
  split_ifs at h
  all_goals first
    | exact Option.noConfusion h
    | (injection h with h2; subst h2; decide)

/-- `_get_pipeline` never touches the instrumentation logs. -/
theorem get_pipeline_logs (s : SysState) (key : String) :
    (_get_pipeline s key).2.transLog = s.transLog ∧
    (_get_pipeline s key).2.complLog = s.complLog := by
  unfold _get_pipeline
  split
  · exact ⟨rfl, rfl⟩
  · split
    · exact ⟨rfl, rfl⟩
    · split
      · exact ⟨rfl, rfl⟩
      · exact ⟨rfl, rfl⟩

/-- The state left by `translate_text` is the state left by the cache
resolution on the log-extended state (the model invocation mutates nothing). -/
theorem translate_text_state (env : Env) (s : SysState) (text src tgt : String) :
    (translate_text env s text src tgt).2
      = (_get_pipeline { s with transLog := s.transLog ++ [(text, src, tgt)] }
          (src ++ "->" ++ tgt)).2 := by
  simp only [translate_text]
  split
  · rename_i heq
    rw [heq]
  · rename_i heq
    rw [heq]
    split <;> rfl

/-- `translate_text` appends exactly its own call to the translation log. -/
theorem translate_text_transLog (env : Env) (s : SysState) (text src tgt : String) :
    (translate_text env s text src tgt).2.transLog = s.transLog ++ [(text, src, tgt)] := by
  rw [translate_text_state]
  exact (get_pipeline_logs _ _).1

/-- `translate_text` never records a completion call. -/
theorem translate_text_complLog (env : Env) (s : SysState) (text src tgt : String) :
    (translate_text env s text src tgt).2.complLog = s.complLog := by
  rw [translate_text_state]
  exact (get_pipeline_logs _ _).2

/-- The unary endpoint's final state is exactly the state left by its single
`translate_text` call. -/
theorem translate_api_state (env : Env) (s : SysState) (msg : ChatMessage) (target : String) :
    (translate_api env s msg target).2
      = (translate_text env s msg.text msg.source_language target).2 := by
  unfold translate_api
  split <;> (rename_i heq; rw [heq])

/-- Boolean success test for a pipeline resolution result. -/
def isOkHandle : Except PyErr Handle → Bool
  | .ok _ => true
  | .error _ => false

/-- A key already cached resolves to the cached handle with no state change. -/
theorem get_pipeline_cached {s : SysState} {key : String} {pipe : Handle}
    (hf : alistFind key s.pipelines = some pipe) :
    _get_pipeline s key = (.ok pipe, s) := by
  unfold _get_pipeline
  rw [hf]

/-- A configured, uncached key resolves by constructing a fresh handle and
appending it to the cache. -/
theorem get_pipeline_miss {s : SysState} {key m : String}
    (hf : alistFind key s.pipelines = none)
    (hm : alistFind key LANGUAGE_MODELS = some m) :
    _get_pipeline s key
      = (.ok { uid := s.nextUid, modelId := m },
         { s with pipelines := s.pipelines ++ [(key, { uid := s.nextUid, modelId := m })],
                  nextUid := s.nextUid + 1 }) := by
  unfold _get_pipeline
  simp only [hf, hm]
  rw [if_neg (models_nonempty hm)]

/-- Claim C1 counterexample: on the request body {text: "Hello",
source_language: "en"} with query target = "en", step 4's logic passes the
text through and answers {translated: "Hello"}, but the endpoint in the code
translates source_language -> target, i.e. looks up the unconfigured pair
"en->en" and answers a 500 error — so the endpoint does not implement step
4's logic. -/
theorem claim1_counterexample :
    (translate_api envOk initState { text := "Hello", source_language := "en" } "en").1
      = .ok (.httpError 500 "No translation model configured for en->en") ∧
    (translate_api_step4Spec envOk initState { text := "Hello", source_language := "en" } "en").1
      = .ok (.json "Hello") ∧
    (translate_api envOk initState { text := "Hello", source_language := "en" } "en").1
      ≠ (translate_api_step4Spec envOk initState { text := "Hello", source_language := "en" } "en").1 := by
  have h1 : (translate_api envOk initState { text := "Hello", source_language := "en" } "en").1
      = .ok (.httpError 500 "No translation model configured for en->en") := rfl
  have h2 : (translate_api_step4Spec envOk initState { text := "Hello", source_language := "en" } "en").1
      = .ok (.json "Hello") := rfl
  refine ⟨h1, h2, ?_⟩
  intro h
  rw [h1, h2] at h
  exact HttpResult.noConfusion (Except.ok.inj h)

/-- Claim C1 (amended): for every request to the unary translate endpoint, the
endpoint performs exactly one translation call, from the caller-supplied
source_language to target (even when target = "en" — no pass-through), never
invokes the completion collaborator, and returns {translated} equal to that
call's result when it succeeds. -/
theorem claim1_unary_endpoint (env : Env) (s : SysState) (msg : ChatMessage) (target : String) :
    (translate_api env s msg target).2.complLog = s.complLog ∧
    (translate_api env s msg target).2.transLog
      = s.transLog ++ [(msg.text, msg.source_language, target)] ∧
    (∀ out s1, translate_text env s msg.text msg.source_language target = (.ok out, s1) →
      translate_api env s msg target = (.ok (.json out), s1)) := by
  refine ⟨?_, ?_, ?_⟩
  · rw [translate_api_state]
    exact translate_text_complLog env s msg.text msg.source_language target
  · rw [translate_api_state]
    exact translate_text_transLog env s msg.text msg.source_language target
  · intro out s1 h
    unfold translate_api
    rw [h]

/-- Witness for C1 (amended) at a concrete request. -/
theorem claim1_unary_endpoint_witness :
    translate_api envOk initState { text := "Hi", source_language := "en" } "hi"
      = (.ok (.json "T:Hi"),
         { pipelines := [("en->hi", { uid := 0, modelId := "Helsinki-NLP/opus-mt-en-hi" })],
           nextUid := 1, transLog := [("Hi", "en", "hi")], complLog := [] }) :=
  (claim1_unary_endpoint envOk initState { text := "Hi", source_language := "en" } "hi").2.2
    "T:Hi"
    { pipelines := [("en->hi", { uid := 0, modelId := "Helsinki-NLP/opus-mt-en-hi" })],
      nextUid := 1, transLog := [("Hi", "en", "hi")], complLog := [] }
    rfl

/-- Claim C2 counterexample: with an underlying model that fails with
modelError "boom", `translate_text` surfaces exactly that exception, not a
TranslationError wrapping it — the source has no try/except around the model
invocation and defines no TranslationError. -/
theorem claim2_counterexample :
    (translate_text envFail initState "Hello" "en" "hi").1 = .error (.modelError "boom") ∧
    (translate_text envFail initState "Hello" "en" "hi").1
      ≠ .error (.translationError (.modelError "boom")) := by
  have h1 : (translate_text envFail initState "Hello" "en" "hi").1
      = .error (.modelError "boom") := rfl
  refine ⟨h1, ?_⟩
  intro h
  rw [h1] at h
  exact PyErr.noConfusion (Except.error.inj h)

/-- Claim C2 (amended): when the underlying translation model invocation inside
a resolved pipeline handle fails with exception e, `translate_text` propagates
exactly e, unwrapped, to the caller. -/
theorem claim2_failure_unwrapped (env : Env) (s : SysState) (text src tgt : String)
    (pipe : Handle) (s1 : SysState) (e : PyErr)
    (hp : _get_pipeline { s with transLog := s.transLog ++ [(text, src, tgt)] }
            (src ++ "->" ++ tgt) = (.ok pipe, s1))
    (hm : env.runModel pipe.modelId text = .error e) :
    translate_text env s text src tgt = (.error e, s1) := by
  simp only [translate_text, hp, hm]

/-- Witness for C2 (amended) at a concrete failing model. -/
theorem claim2_failure_unwrapped_witness :
    translate_text envFail initState "Hello" "en" "hi"
      = (.error (.modelError "boom"),
         { pipelines := [("en->hi", { uid := 0, modelId := "Helsinki-NLP/opus-mt-en-hi" })],
           nextUid := 1, transLog := [("Hello", "en", "hi")], complLog := [] }) :=
  claim2_failure_unwrapped envFail initState "Hello" "en" "hi"
    { uid := 0, modelId := "Helsinki-NLP/opus-mt-en-hi" }
    { pipelines := [("en->hi", { uid := 0, modelId := "Helsinki-NLP/opus-mt-en-hi" })],
      nextUid := 1, transLog := [("Hello", "en", "hi")], complLog := [] }
    (.modelError "boom") rfl rfl

/-- Claim C3: for every pair key with no entry in LANGUAGE_MODELS, resolving
it (from any state whose cache holds only configured keys, an invariant of
every reachable state) raises ValueError with a message naming the missing
pair, and leaves the state — in particular the cache — unchanged. -/
theorem claim3_unconfigured_pair (s : SysState) (key : String)
    (hc : cacheConfigured s = true)
    (hn : alistFind key LANGUAGE_MODELS = none) :
    _get_pipeline s key
      = (.error (.valueError ("No translation model configured for " ++ key)), s) := by
  have hfind : alistFind key s.pipelines = none := by
    cases hf : alistFind key s.pipelines with
    | none => rfl
    | some pipe =>
      have hmem := alistFind_mem hf
      have hall := List.all_eq_true.mp hc _ hmem
      simp only at hall
      rw [hn] at hall
      simp at hall
  unfold _get_pipeline
  rw [hfind, hn]

/-- Witness for C3 at the unconfigured pair "fr->en" from the initial state. -/
theorem claim3_unconfigured_pair_witness :
    cacheConfigured initState = true ∧
    alistFind "fr->en" LANGUAGE_MODELS = none ∧
    _get_pipeline initState "fr->en"
      = (.error (.valueError ("No translation model configured for " ++ "fr->en")), initState) :=
  ⟨rfl, by decide, claim3_unconfigured_pair initState "fr->en" rfl (by decide)⟩

/-- Claim C4: for every configured pair key, resolution succeeds, and resolving
a second time returns exactly the first call's handle and state: the cached
handle is returned unchanged, with no reconstruction and no state mutation. -/
theorem claim4_identity_stable (s : SysState) (key m : String)
    (hm : alistFind key LANGUAGE_MODELS = some m) :
    isOkHandle (_get_pipeline s key).1 = true ∧
    _get_pipeline (_get_pipeline s key).2 key = _get_pipeline s key := by
  cases hf : alistFind key s.pipelines with
  | some pipe =>
    have h1 : _get_pipeline s key = (.ok pipe, s) := get_pipeline_cached hf
    rw [h1]
    exact ⟨rfl, get_pipeline_cached hf⟩
  | none =>
    have h1 := get_pipeline_miss hf hm
    rw [h1]
    exact ⟨rfl, get_pipeline_cached (alistFind_append_self _ hf)⟩

/-- Witness for C4 at the configured pair "en->hi" from the initial state. -/
theorem claim4_identity_stable_witness :
    isOkHandle (_get_pipeline initState "en->hi").1 = true ∧
    _get_pipeline (_get_pipeline initState "en->hi").2 "en->hi"
      = _get_pipeline initState "en->hi" :=
  claim4_identity_stable initState "en->hi" "Helsinki-NLP/opus-mt-en-hi" (by decide)

/-- Claim C8: the unary endpoint never lets an exception escape uncaught, and
on any failure of its translation call it answers a single HTTPException with
status 500 whose detail is the failure's message (str(e)). -/
theorem claim8_endpoint_catches (env : Env) (s : SysState) (msg : ChatMessage) (target : String) :
    (∀ e, (translate_api env s msg target).1 ≠ Except.error e) ∧
    ((∃ out s1, translate_text env s msg.text msg.source_language target = (.ok out, s1) ∧
        translate_api env s msg target = (.ok (.json out), s1)) ∨
     (∃ e s1, translate_text env s msg.text msg.source_language target = (.error e, s1) ∧
        translate_api env s msg target = (.ok (.httpError 500 (pyMessage e)), s1))) := by
  cases h : translate_text env s msg.text msg.source_language target with
  | mk res s1 =>
    cases res with
    | ok out =>
      have hapi : translate_api env s msg target = (.ok (.json out), s1) := by
        unfold translate_api
        rw [h]
      refine ⟨?_, .inl ⟨out, s1, rfl, hapi⟩⟩
      intro e hE
      rw [hapi] at hE
      exact Except.noConfusion hE
    | error e =>
      have hapi : translate_api env s msg target
          = (.ok (.httpError 500 (pyMessage e)), s1) := by
        unfold translate_api
        rw [h]
      refine ⟨?_, .inr ⟨e, s1, rfl, hapi⟩⟩
      intro e2 hE
      rw [hapi] at hE
      exact Except.noConfusion hE

/-- Witness for C8 at a concrete failing request. -/
theorem claim8_endpoint_catches_witness :
    (translate_api envOk initState { text := "Hello", source_language := "fr" } "en").1
      ≠ Except.error (.valueError "No translation model configured for fr->en") :=
  (claim8_endpoint_catches envOk initState { text := "Hello", source_language := "fr" } "en").1
    (.valueError "No translation model configured for fr->en")

/-- Case analysis on a single resolution's effect on the cache: either the
cache is untouched (hit, or unconfigured key), or one entry for a previously
absent configured key is appended. -/
theorem get_pipeline_effect (s : SysState) (k : String) :
    ((_get_pipeline s k).2.pipelines = s.pipelines ∧
      ((alistFind k s.pipelines).isSome = true ∨ (alistFind k LANGUAGE_MODELS).isSome = false))
    ∨ (∃ m, alistFind k s.pipelines = none ∧ alistFind k LANGUAGE_MODELS = some m ∧
        (_get_pipeline s k).2.pipelines
          = s.pipelines ++ [(k, { uid := s.nextUid, modelId := m })]) := by
  cases hf : alistFind k s.pipelines with
  | some pipe =>
    left
    rw [get_pipeline_cached hf]
    exact ⟨rfl, .inl rfl⟩
  | none =>
    cases hm : alistFind k LANGUAGE_MODELS with
    | none =>
      left
      have herr : _get_pipeline s k
          = (.error (.valueError ("No translation model configured for " ++ k)), s) := by
        unfold _get_pipeline
        rw [hf, hm]
      rw [herr]
      exact ⟨rfl, .inr rfl⟩
    | some m =>
      right
      exact ⟨m, rfl, rfl, by rw [get_pipeline_miss hf hm]⟩

/-- A resolution step preserves distinctness of the cached keys. -/
theorem step_nodup (s : SysState) (k : String)
    (hnd : (s.pipelines.map Prod.fst).Nodup) :
    ((_get_pipeline s k).2.pipelines.map Prod.fst).Nodup := by
  rcases get_pipeline_effect s k with ⟨heq, _⟩ | ⟨m, hf, _, heq⟩
  · rw [heq]
    exact hnd
  · rw [heq, List.map_append, List.nodup_append]
    refine ⟨hnd, by simp, ?_⟩
    intro a ha hb
    simp only [List.map_cons, List.map_nil, List.mem_singleton] at hb
    subst hb
    exact (alistFind_eq_none_iff.mp hf) ha

/-- Key membership in the cache after a resolution step. -/
theorem step_mem (s : SysState) (k k2 : String) :
    k2 ∈ (_get_pipeline s k).2.pipelines.map Prod.fst
      ↔ (k2 ∈ s.pipelines.map Prod.fst
          ∨ (k2 = k ∧ (alistFind k LANGUAGE_MODELS).isSome = true)) := by
  rcases get_pipeline_effect s k with ⟨heq, hside⟩ | ⟨m, hf, hm, heq⟩
  · rw [heq]
    constructor
    · exact fun h => .inl h
    · rintro (h | ⟨rfl, hcfg⟩)
      · exact h
      · rcases hside with hcache | hncfg
        · rcases Option.isSome_iff_exists.mp hcache with ⟨pipe, hp⟩
          exact List.mem_map.mpr ⟨(k2, pipe), alistFind_mem hp, rfl⟩
        · rw [hcfg] at hncfg
          exact Bool.noConfusion hncfg
  · rw [heq, List.map_append, List.mem_append]
    constructor
    · rintro (h | h)
      · exact .inl h
      · right
        refine ⟨?_, by rw [hm]; rfl⟩
        simpa using h
    · rintro (h | ⟨rfl, hcfg⟩)
      · exact .inl h
      · right
        simp

/-- Claim C5: processing a message with source "en" and bot language "en"
performs zero translation calls, exactly one completion call carrying the
original text, mutates no cache state, and — when the completion succeeds —
answers reply = reply_en = the completion result with detected_source "en". -/
theorem claim5_english_identity (env : Env) (s : SysState) (text : String) :
    (processMsg env s text "en" "en").2.transLog = s.transLog ∧
    (processMsg env s text "en" "en").2.complLog = s.complLog ++ [text] ∧
    (processMsg env s text "en" "en").2.pipelines = s.pipelines ∧
    (∀ bot, env.generate_reply text = .ok bot →
      (processMsg env s text "en" "en").1
        = .ok { reply := bot, reply_en := bot, detected_source := "en" }) ∧
    (∀ e, env.generate_reply text = .error e →
      (processMsg env s text "en" "en").1 = .error e) := by
  have hpm : processMsg env s text "en" "en"
      = (match env.generate_reply text with
         | .error e => (.error e, { s with complLog := s.complLog ++ [text] })
         | .ok bot => (.ok { reply := bot, reply_en := bot, detected_source := "en" },
                       { s with complLog := s.complLog ++ [text] })) := rfl
  rw [hpm]
  cases hg : env.generate_reply text with
  | error e =>
    refine ⟨rfl, rfl, rfl, ?_, ?_⟩
    · intro bot hb
      exact Except.noConfusion hb
    · intro e2 he2
      cases Except.error.inj he2
      rfl
  | ok bot =>
    refine ⟨rfl, rfl, rfl, ?_, ?_⟩
    · intro bot2 hb
      cases Except.ok.inj hb
      rfl
    · intro e2 he2
      exact Except.noConfusion he2

/-- Witness for C5 at a concrete message. -/
theorem claim5_english_identity_witness :
    (processMsg envOk initState "Hello" "en" "en").1
      = .ok { reply := "R:Hello", reply_en := "R:Hello", detected_source := "en" } :=
  (claim5_english_identity envOk initState "Hello").2.2.2.1 "R:Hello" rfl

/-- Claim C6: the sentinel bot_language "source" makes processing behave
exactly as if the caller-supplied source_language had been passed as the
output language; in particular with source "en" the output language is "en",
no output translation occurs, and the reply equals the English intermediate. -/
theorem claim6_source_echo (env : Env) (s : SysState) (text src : String) :
    processMsg env s text src "source" = processMsg env s text src src ∧
    (processMsg env s text "en" "source").2.transLog = s.transLog ∧
    (∀ bot, env.generate_reply text = .ok bot →
      (processMsg env s text "en" "source").1
        = .ok { reply := bot, reply_en := bot, detected_source := "en" }) := by
  have hpm : processMsg env s text "en" "source"
      = (match env.generate_reply text with
         | .error e => (.error e, { s with complLog := s.complLog ++ [text] })
         | .ok bot => (.ok { reply := bot, reply_en := bot, detected_source := "en" },
                       { s with complLog := s.complLog ++ [text] })) := rfl
  refine ⟨?_, ?_, ?_⟩
  · unfold processMsg
    simp
  · rw [hpm]
    cases hg : env.generate_reply text <;> rfl
  · rw [hpm]
    cases hg : env.generate_reply text with
    | error e =>
      intro bot hb
      exact Except.noConfusion hb
    | ok bot =>
      intro bot2 hb
      cases Except.ok.inj hb
      rfl

/-- Witness for C6 at concrete messages. -/
theorem claim6_source_echo_witness :
    processMsg envOk initState "Hola" "hi" "source" = processMsg envOk initState "Hola" "hi" "hi" ∧
    (processMsg envOk initState "Hello" "en" "source").1
      = .ok { reply := "R:Hello", reply_en := "R:Hello", detected_source := "en" } :=
  ⟨(claim6_source_echo envOk initState "Hola" "hi").1,
   (claim6_source_echo envOk initState "Hello" "en").2.2 "R:Hello" rfl⟩

/-- Processing with output language "en": the only translation call that can
occur is the inbound one, and on success the reply equals the English
intermediate and detected_source echoes the supplied source. -/
theorem processMsg_tgt_en (env : Env) (s : SysState) (text src : String) :
    (processMsg env s text src "en").2.transLog
      = s.transLog ++ (if src = "en" then [] else [(text, src, "en")]) ∧
    (∀ resp, (processMsg env s text src "en").1 = .ok resp →
      resp.reply = resp.reply_en ∧ resp.detected_source = src) := by
  by_cases hsrc : src = "en"
  · subst hsrc
    have hpm : processMsg env s text "en" "en"
        = (match env.generate_reply text with
           | .error e => (.error e, { s with complLog := s.complLog ++ [text] })
           | .ok bot => (.ok { reply := bot, reply_en := bot, detected_source := "en" },
                         { s with complLog := s.complLog ++ [text] })) := rfl
    rw [hpm]
    cases hg : env.generate_reply text with
    | error e =>
      refine ⟨by simp, ?_⟩
      intro resp h
      exact Except.noConfusion h
    | ok bot =>
      refine ⟨by simp, ?_⟩
      intro resp h
      cases Except.ok.inj h
      exact ⟨rfl, rfl⟩
  · have htl := translate_text_transLog env s text src "en"
    unfold processMsg
    rw [if_pos hsrc]
    cases htt : translate_text env s text src "en" with
    | mk res s1 =>
      rw [htt] at htl
      cases res with
      | error e =>
        refine ⟨?_, ?_⟩
        · rw [if_neg hsrc]
          exact htl
        · intro resp h
          exact Except.noConfusion h
      | ok user_en =>
        dsimp only
        cases hg : env.generate_reply user_en with
        | error e =>
          refine ⟨?_, ?_⟩
          · rw [if_neg hsrc]
            exact htl
          · intro resp h
            exact Except.noConfusion h
        | ok bot =>
          refine ⟨?_, ?_⟩
          · rw [if_neg hsrc]
            exact htl
          · intro resp h
            cases Except.ok.inj h
            exact ⟨rfl, rfl⟩

/-- Claim C9: a frame with no bot_language field is processed exactly as if
bot_language were "en"; the output language is then "en", so the only
translation that can occur is the inbound one, and on success the reply
equals the English intermediate. -/
theorem claim9_default_bot_language (env : Env) (s : SysState)
    (text : String) (srcOpt : Option String) :
    handleFrame env s { text := text, source_language := srcOpt, bot_language := none }
      = handleFrame env s { text := text, source_language := srcOpt, bot_language := some "en" } ∧
    (handleFrame env s { text := text, source_language := srcOpt, bot_language := none }).2.transLog
      = s.transLog
        ++ (if srcOpt.getD "en" = "en" then [] else [(text, srcOpt.getD "en", "en")]) ∧
    (∀ resp,
      (handleFrame env s { text := text, source_language := srcOpt, bot_language := none }).1
        = .ok resp → resp.reply = resp.reply_en) := by
  refine ⟨rfl, ?_, ?_⟩
  · exact (processMsg_tgt_en env s text (srcOpt.getD "en")).1
  · intro resp h
    exact ((processMsg_tgt_en env s text (srcOpt.getD "en")).2 resp h).1

/-- Witness for C9 at a concrete frame. -/
theorem claim9_default_bot_language_witness :
    handleFrame envOk initState { text := "Hola", source_language := some "hi", bot_language := none }
      = handleFrame envOk initState
          { text := "Hola", source_language := some "hi", bot_language := some "en" } ∧
    ({ reply := "R:T:Hola", reply_en := "R:T:Hola", detected_source := "hi" } : ChatResponse).reply
      = ({ reply := "R:T:Hola", reply_en := "R:T:Hola", detected_source := "hi" } : ChatResponse).reply_en :=
  ⟨(claim9_default_bot_language envOk initState "Hola" (some "hi")).1,
   (claim9_default_bot_language envOk initState "Hola" (some "hi")).2.2
     { reply := "R:T:Hola", reply_en := "R:T:Hola", detected_source := "hi" } rfl⟩

/-- Processing with source language "en": the inbound translation is skipped,
every translation call that occurs translates out of "en", and on success
detected_source is "en". -/
theorem processMsg_src_en (env : Env) (s : SysState) (text tgt : String) :
    (∃ tl, (processMsg env s text "en" tgt).2.transLog = s.transLog ++ tl ∧
        ∀ c ∈ tl, c.2.1 = "en") ∧
    (∀ resp, (processMsg env s text "en" tgt).1 = .ok resp →
      resp.detected_source = "en") := by
  unfold processMsg
  rw [if_neg (fun h => h rfl)]
  dsimp only
  cases hg : env.generate_reply text with
  | error e =>
    refine ⟨⟨[], (List.append_nil _).symm, ?_⟩, ?_⟩
    · intro c hc
      cases hc
    · intro resp h
      exact Except.noConfusion h
  | ok bot =>
    dsimp only
    by_cases htgt : tgt = "source"
    · rw [if_pos htgt]
      refine ⟨⟨[], (List.append_nil _).symm, ?_⟩, ?_⟩
      · intro c hc
        cases hc
      · intro resp h
        cases Except.ok.inj h
        rfl
    · rw [if_neg htgt]
      by_cases hen : tgt = "en"
      · rw [if_neg (fun hcon => hcon hen)]
        refine ⟨⟨[], (List.append_nil _).symm, ?_⟩, ?_⟩
        · intro c hc
          cases hc
        · intro resp h
          cases Except.ok.inj h
          rfl
      · rw [if_pos hen]
        have htl := translate_text_transLog env
          { s with complLog := s.complLog ++ [text] } bot "en" tgt
        cases htt : translate_text env { s with complLog := s.complLog ++ [text] } bot "en" tgt with
        | mk res s3 =>
          rw [htt] at htl
          cases res with
          | error e =>
            refine ⟨⟨[(bot, "en", tgt)], htl, ?_⟩, ?_⟩
            · intro c hc
              cases hc with
              | head => rfl
              | tail _ hmem => cases hmem
            · intro resp h
              exact Except.noConfusion h
          | ok bot_out =>
            refine ⟨⟨[(bot, "en", tgt)], htl, ?_⟩, ?_⟩
            · intro c hc
              cases hc with
              | head => rfl
              | tail _ hmem => cases hmem
            · intro resp h
              cases Except.ok.inj h
              rfl

/-- Claim C10: a frame with no source_language field is processed exactly as
if source_language were "en": the inbound translation is skipped (every
translation performed goes out of "en"), and the outbound detected_source
field is "en". -/
theorem claim10_default_source_language (env : Env) (s : SysState)
    (text : String) (botOpt : Option String) :
    handleFrame env s { text := text, source_language := none, bot_language := botOpt }
      = handleFrame env s { text := text, source_language := some "en", bot_language := botOpt } ∧
    (∃ tl,
      (handleFrame env s { text := text, source_language := none, bot_language := botOpt }).2.transLog
        = s.transLog ++ tl ∧ ∀ c ∈ tl, c.2.1 = "en") ∧
    (∀ resp,
      (handleFrame env s { text := text, source_language := none, bot_language := botOpt }).1
        = .ok resp → resp.detected_source = "en") := by
  refine ⟨rfl, ?_, ?_⟩
  · exact (processMsg_src_en env s text (botOpt.getD "en")).1
  · intro resp h
    exact (processMsg_src_en env s text (botOpt.getD "en")).2 resp h

/-- A cached entry survives any further resolution step unchanged. -/
theorem step_persist (s : SysState) (k k2 : String) (h2 : Handle)
    (hf : alistFind k2 s.pipelines = some h2) :
    alistFind k2 (_get_pipeline s k).2.pipelines = some h2 := by
  rcases get_pipeline_effect s k with ⟨heq, _⟩ | ⟨m, _, _, heq⟩
  · rw [heq]
    exact hf
  · rw [heq]
    exact alistFind_append_of_some _ hf

/-- Invariant of any resolution sequence from a state with distinct cache
keys: keys stay distinct, a key is cached exactly when it was already cached
or is a configured key that was resolved, and existing entries persist. -/
theorem runResolves_invariant (ks : List String) (s : SysState)
    (hnd : (s.pipelines.map Prod.fst).Nodup) :
    ((runResolves ks s).pipelines.map Prod.fst).Nodup ∧
    (∀ k, k ∈ (runResolves ks s).pipelines.map Prod.fst
        ↔ (k ∈ s.pipelines.map Prod.fst
            ∨ (k ∈ ks ∧ (alistFind k LANGUAGE_MODELS).isSome = true))) ∧
    (∀ k h, alistFind k s.pipelines = some h →
      alistFind k (runResolves ks s).pipelines = some h) := by
  induction ks generalizing s with
  | nil =>
    refine ⟨hnd, ?_, ?_⟩
    · intro k
      simp [runResolves]
    · intro k h hf
      exact hf
  | cons k0 rest ih =>
    obtain ⟨ihnd, ihmem, ihpers⟩ := ih (_get_pipeline s k0).2 (step_nodup s k0 hnd)
    refine ⟨ihnd, ?_, ?_⟩
    · intro k
      have hrun : runResolves (k0 :: rest) s = runResolves rest (_get_pipeline s k0).2 := rfl
      rw [hrun, ihmem k, step_mem s k0 k]
      constructor
      · rintro ((h | ⟨rfl, hcfg⟩) | ⟨hrest, hcfg⟩)
        · exact .inl h
        · exact .inr ⟨List.mem_cons_self _ _, hcfg⟩
        · exact .inr ⟨List.mem_cons_of_mem _ hrest, hcfg⟩
      · rintro (h | ⟨hmem, hcfg⟩)
        · exact .inl (.inl h)
        · rcases List.mem_cons.mp hmem with rfl | hrest
          · exact .inl (.inr ⟨rfl, hcfg⟩)
          · exact .inr ⟨hrest, hcfg⟩
    · intro k h hf
      exact ihpers k h (step_persist s k0 k h hf)

/-- Claim C7: over any sequence of resolve calls from process start, the
cache holds at most one handle per distinct key (its key list is duplicate
free), a key is cached exactly when it is configured and was resolved at
least once, and a cache entry, once created, is never replaced by any later
sequence of resolves — so the cache is mutated exactly once per distinct
configured key over the process lifetime. -/
theorem claim7_cache_once (ks : List String) :
    ((runResolves ks initState).pipelines.map Prod.fst).Nodup ∧
    (∀ k, k ∈ (runResolves ks initState).pipelines.map Prod.fst
        ↔ (k ∈ ks ∧ (alistFind k LANGUAGE_MODELS).isSome = true)) ∧
    (∀ k h ks2, alistFind k (runResolves ks initState).pipelines = some h →
      alistFind k (runResolves ks2 (runResolves ks initState)).pipelines = some h) := by
  obtain ⟨hnd, hmem, _⟩ := runResolves_invariant ks initState (by simp [initState])
  refine ⟨hnd, ?_, ?_⟩
  · intro k
    rw [hmem k]
    simp [initState]
  · intro k h ks2 hf
    exact (runResolves_invariant ks2 (runResolves ks initState) hnd).2.2 k h hf

/-- Witness for C7: the handle constructed for "en->hi" persists across a
later resolve of "hi->en". -/
theorem claim7_cache_once_witness :
    alistFind "en->hi" (runResolves ["hi->en"] (runResolves ["en->hi"] initState)).pipelines
      = some { uid := 0, modelId := "Helsinki-NLP/opus-mt-en-hi" } :=
  (claim7_cache_once ["en->hi"]).2.2 "en->hi"
    { uid := 0, modelId := "Helsinki-NLP/opus-mt-en-hi" } ["hi->en"] (by decide)

/-- Witness for C10 at a concrete frame. -/
theorem claim10_default_source_language_witness :
    handleFrame envOk initState { text := "Hey", source_language := none, bot_language := some "ja" }
      = handleFrame envOk initState
          { text := "Hey", source_language := some "en", bot_language := some "ja" } ∧
    ({ reply := "T:R:Hey", reply_en := "R:Hey", detected_source := "en" } : ChatResponse).detected_source
      = "en" :=
  ⟨(claim10_default_source_language envOk initState "Hey" (some "ja")).1,
   (claim10_default_source_language envOk initState "Hey" (some "ja")).2.2
     { reply := "T:R:Hey", reply_en := "R:Hey", detected_source := "en" } rfl⟩

end Chatbot
